import Mathlib

/-!
# Verification of the Metaflow deployer handle model

Shallow embedding of `metaflow/runner/deployer.py`,
`metaflow/plugins/argo/argo_workflows_deployer_objects.py` and
`metaflow/plugins/aws/step_functions/step_functions_deployer.py`.

Python strings are modelled as `List Char` (a Python `str` is a sequence of
code points) where character-level reasoning is needed, and as `String`
elsewhere.  JSON result payloads delivered over the result channel are
modelled as either `malformed` (a `json.loads` failure) or a record of
optional fields (`dict.get` on an absent key yields `None`, modelled by
`Option`).  Child processes are modelled by their exit code together with a
flag saying whether the process has been reaped (Python's
`Popen.returncode` is `None` until the process has been waited on or
polled after exit).
-/

namespace Metaflow

/-- A Python string as a sequence of code points. -/
abbrev PyStr := List Char

/-- A JSON value as far as the deployer payloads are concerned: the deployer
only ever stores payload fields opaquely, so we keep strings and a
distinguished empty object (the `{}` default of `content.get("additional_info", {})`). -/
inductive JVal where
  | str (s : String)
  | emptyObj
  deriving DecidableEq, Repr

/-- Fields of the `create` result payload `{name, flow_name, metadata, additional_info?}`.
`none` models an absent key (Python `dict.get` returns `None`). -/
structure CreatePayload where
  name : Option JVal
  flow_name : Option JVal
  metadata : Option JVal
  additional_info : Option JVal
  deriving DecidableEq, Repr

/-- Fields of the `trigger` result payload `{metadata, pathspec, name}`. -/
structure TriggerPayload where
  metadata : Option JVal
  pathspec : Option JVal
  name : Option JVal
  deriving DecidableEq, Repr

/-- What `json.loads` makes of the bytes read from the result channel:
either it raises (`malformed`) or it yields a JSON object whose fields are
looked up with `dict.get`. -/
inductive Content (π : Type) where
  | malformed
  | parsed (p : π)
  deriving DecidableEq, Repr

/-- The mutable payload-derived fields of a `DeployerImpl`
(`self.name`, `self.flow_name`, `self.metadata`, `self.additional_info`),
as set by `DeployerImpl._create`.  Before the first `create` the attributes
are unset, modelled as `none` (`additional_info` likewise starts unset). -/
structure DeployerState where
  name : Option JVal
  flow_name : Option JVal
  metadata : Option JVal
  additional_info : Option JVal
  deriving DecidableEq, Repr

/-- A fresh `DeployerImpl`: no payload-derived attribute set yet. -/
def DeployerState.fresh : DeployerState :=
  { name := none, flow_name := none, metadata := none, additional_info := none }

/-- The fields a `DeployedFlow` copies out of its deployer in
`DeployedFlow.__init__` (`self.name`, `self.flow_name`, `self.metadata`). -/
structure DeployedFlowHandle where
  name : Option JVal
  flow_name : Option JVal
  metadata : Option JVal
  deriving DecidableEq, Repr

/-- The exceptions `_create` can raise after the result channel was read:
`parseError` is `json.loads` raising on a malformed payload, `deployFailed`
is the `Exception("Error deploying %s to %s" ...)` raised on a non-zero
child exit code. -/
inductive CreateError where
  | parseError
  | deployFailed
  deriving DecidableEq, Repr

/-- `DeployerImpl._create` (deployer.py lines 349-381), from the point where
the result-channel content has been read.  It parses the content with
`json.loads` (raising on malformed input **before** any attribute is set),
then unconditionally assigns `self.name`, `self.flow_name`, `self.metadata`
and `self.additional_info` from the payload (`additional_info` defaulting to
`{}`), and only **then** tests `command_obj.process.returncode == 0`: on zero
it returns a `DeployedFlow` built over the updated deployer, otherwise it
raises.  Returns the deployer state after the call together with the
outcome. -/
def deployerCreate (s : DeployerState) (content : Content CreatePayload)
    (returncode : Int) : DeployerState × Except CreateError DeployedFlowHandle :=
  match content with
  | .malformed => (s, .error .parseError)
  | .parsed p =>
      let s' : DeployerState :=
        { name := p.name
          flow_name := p.flow_name
          metadata := p.metadata
          additional_info := some (p.additional_info.getD .emptyObj) }
      if returncode = 0 then
        (s', .ok { name := s'.name, flow_name := s'.flow_name, metadata := s'.metadata })
      else
        (s', .error .deployFailed)

/-- The payload-derived attributes of a `TriggeredRun`
(`self.metadata_for_flow`, `self.pathspec`, `self.name`). -/
structure TriggeredRunState where
  metadata_for_flow : Option JVal
  pathspec : Option JVal
  name : Option JVal
  deriving DecidableEq, Repr

/-- The exceptions the trigger path can raise after the result channel was
read: `parseError` is `json.loads` raising inside `TriggeredRun.__init__`,
`triggerFailed` is the `Exception("Error triggering ...")` raised on a
non-zero child exit code. -/
inductive TriggerError where
  | parseError
  | triggerFailed
  deriving DecidableEq, Repr

/-- `TriggeredRun.__init__` (deployer.py lines 135-144): parse the content
with `json.loads` (raising on malformed input) and store
`content_json.get("metadata")`, `content_json.get("pathspec")` and
`content_json.get("name")` — each `None` when the key is absent; no check
on any field is performed. -/
def triggeredRunInit (content : Content TriggerPayload) :
    Except TriggerError TriggeredRunState :=
  match content with
  | .malformed => .error .parseError
  | .parsed p =>
      .ok { metadata_for_flow := p.metadata, pathspec := p.pathspec, name := p.name }

/-- `ArgoWorkflowsDeployedFlow.trigger` (argo_workflows_deployer_objects.py
lines 374-427), from the point where `handle_timeout` has delivered the
result-channel content and `sync_wait` has completed: if the child's exit
code is `0`, construct `ArgoWorkflowsTriggeredRun(deployer=..., content=content)`
(whose `__init__` parses the content), otherwise raise. -/
def argoTrigger (content : Content TriggerPayload) (returncode : Int) :
    Except TriggerError TriggeredRunState :=
  if returncode = 0 then triggeredRunInit content
  else .error .triggerFailed

/-- A spawned child process, as seen through `subprocess.Popen`: the exit
code it exits with, and whether the parent has already reaped it (waited on
it or polled it after exit).  Python's `Popen.returncode` is `None` until
the process has been reaped. -/
structure ChildProcess where
  reaped : Bool
  exitCode : Int
  deriving DecidableEq, Repr

/-- `CommandManager.sync_wait()`: block until the child exits and reap it;
afterwards `process.returncode` holds the child's exit code. -/
def syncWait (p : ChildProcess) : ChildProcess := { p with reaped := true }

/-- `process.returncode`: `None` until the child has been reaped, the exit
code afterwards. -/
def returncode (p : ChildProcess) : Option Int :=
  if p.reaped then some p.exitCode else none

/-- The Argo fire-and-forget verbs `suspend`, `unsuspend`, `terminate`
(argo_workflows_deployer_objects.py lines 70-173) and `delete` (lines
342-372): run the command, then
`command_obj.sync_wait(); return command_obj.process.returncode == 0`. -/
def argoFireAndForget (child : ChildProcess) : Bool :=
  returncode (syncWait child) == some 0

/-- The step-functions fire-and-forget verbs `terminate`
(step_functions_deployer.py lines 15-49), `list_runs` (lines 70-104) and
`delete` (lines 107-138): run the command, then
`command_obj = instance.deployer.spm.get(pid);
return command_obj.process.returncode == 0` — with **no** `sync_wait`
before `returncode` is read. -/
def sfnFireAndForget (child : ChildProcess) : Bool :=
  returncode child == some 0

/-- A resolved "lower-level command group": records the backend type key it
was resolved against and the deployer keyword arguments it was built
with. -/
structure CommandGroup where
  type_key : String
  deployer_kwargs : List (String × String)
  deriving DecidableEq, Repr

/-- The `ValueError("DeployerImpl doesn't have a 'TYPE' to target. ...")`
raised on an unset backend type. -/
inductive ConfigError where
  | valueError
  deriving DecidableEq, Repr

/-- `get_lower_level_group` (deployer.py lines 19-50): raises `ValueError`
when `_type` is `None`, otherwise resolves
`getattr(api(**top_level_kwargs), _type)(**deployer_kwargs)`. -/
def get_lower_level_group (ty : Option String)
    (deployer_kwargs : List (String × String)) : Except ConfigError CommandGroup :=
  match ty with
  | none => .error .valueError
  | some t => .ok { type_key := t, deployer_kwargs := deployer_kwargs }

/-- The `TYPE` guard of `DeployerImpl.__init__` (deployer.py lines
295-299): raises `ValueError` when the class variable `TYPE` is `None`,
before anything else happens (no subprocess manager is created). -/
def deployerImplInitCheck (TYPE : Option String) : Except ConfigError Unit :=
  match TYPE with
  | none => .error .valueError
  | some _ => .ok ()

/-- The `from_deployment` function injected by `DeployedFlowMeta`
(deployer.py lines 211-224): when the requested `impl` key is among the
registered providers, dispatch to that provider's
`DEPLOYED_FLOW_TYPE.from_deployment(identifier, metadata, impl)` (here
recorded as the dispatched pair); when it is not, the `if` has no `else`
branch and the function returns `None`. -/
def fromDeploymentDispatch (allowed_providers : List String) (identifier : String)
    (impl : String) : Option (String × String) :=
  if impl ∈ allowed_providers then some (impl, identifier) else none

/-- Python `str.split(sep)` for a single-character separator: split on
every occurrence of the separator, keeping empty segments
(`"a//b".split("/") == ["a", "", "b"]`, `"".split("/") == [""]`). -/
def pySplit (sep : Char) : PyStr → List PyStr
  | [] => [[]]
  | c :: rest =>
    if c = sep then [] :: pySplit sep rest
    else
      match pySplit sep rest with
      | [] => [[c]]
      | w :: ws => (c :: w) :: ws

/-- The query-argument derivation of `ArgoWorkflowsTriggeredRun.status`
(argo_workflows_deployer_objects.py lines 219-239):
`flow_name, run_id = self.pathspec.split("/")` (a `ValueError` — here
`none` — unless the split has exactly two parts), then `name = run_id[5:]`
— a hardcoded offset of five characters, the length of the `"argo-"`
prefix.  Returns the `(flow_name, name)` pair that is passed to
`ArgoWorkflows.get_workflow_status`. -/
def argoStatusQueryArgs (pathspec : PyStr) : Option (PyStr × PyStr) :=
  match pySplit '/' pathspec with
  | [flow_name, run_id] => some (flow_name, run_id.drop 5)
  | _ => none

/-- The `project_kwargs` accumulated by
`ArgoWorkflowsDeployedFlow.from_deployment`
(argo_workflows_deployer_objects.py lines 286-294) from the stored
`metaflow/branch_name` annotation. -/
structure ProjectKwargs where
  production : Option Bool
  branch : Option PyStr
  deriving DecidableEq, Repr

/-- The branch-annotation handling of
`ArgoWorkflowsDeployedFlow.from_deployment`
(argo_workflows_deployer_objects.py lines 286-294):
`branch_name.startswith("prod.")` sets `production = True` and
`branch = branch_name[len("prod."):]`; else `startswith("test.")` sets
`branch = branch_name[len("test."):]`; else `branch_name == "prod"` sets
`production = True`; otherwise no key is set.  An absent annotation
(`None`) sets nothing. -/
def projectKwargsOfBranch (branch_name : Option PyStr) : ProjectKwargs :=
  match branch_name with
  | none => { production := none, branch := none }
  | some bn =>
    if "prod.".data.isPrefixOf bn then
      { production := some true, branch := some (bn.drop 5) }
    else if "test.".data.isPrefixOf bn then
      { production := none, branch := some (bn.drop 5) }
    else if bn = "prod".data then
      { production := some true, branch := none }
    else { production := none, branch := none }

/-- Python `str.replace(old, new)` for single-character `old`/`new`:
replace every occurrence of the character (as in
`provider_class.TYPE.replace("-", "_")`). -/
def pyReplaceChar (old new : Char) (s : PyStr) : PyStr :=
  s.map (fun c => if c = old then new else c)

/-- The configuration stored by `Deployer.__init__` (deployer.py lines
110-127): every argument is stored unchanged on `self`. -/
structure DeployerConfig where
  flow_file : String
  show_output : Bool
  profile : Option String
  env : Option (List (String × String))
  cwd : Option String
  file_read_timeout : Nat
  top_level_kwargs : List (String × String)
  deriving DecidableEq, Repr

/-- A provider registered in `DEPLOYER_IMPL_PROVIDERS`, identified by its
`TYPE` class variable (the CLI group name, e.g. `"argo-workflows"`). -/
structure Provider where
  TYPE : PyStr
  deriving DecidableEq, Repr

/-- The constructor arguments a provider's `DeployerImpl` is built with by
the injected method (deployer.py lines 60-70). -/
structure DeployerImplArgs where
  deployer_kwargs : List (String × String)
  flow_file : String
  show_output : Bool
  profile : Option String
  env : Option (List (String × String))
  cwd : Option String
  file_read_timeout : Nat
  top_level_kwargs : List (String × String)
  deriving DecidableEq, Repr

/-- The body of the per-provider method injected by `DeployerMeta`
(deployer.py lines 60-70): construct the provider's deployer class with the
call's own keyword arguments as `deployer_kwargs` and the `Deployer`'s
stored fields forwarded unchanged. -/
def injectedDeployerMethod (self : DeployerConfig)
    (deployer_kwargs : List (String × String)) : DeployerImplArgs :=
  { deployer_kwargs := deployer_kwargs
    flow_file := self.flow_file
    show_output := self.show_output
    profile := self.profile
    env := self.env
    cwd := self.cwd
    file_read_timeout := self.file_read_timeout
    top_level_kwargs := self.top_level_kwargs }

/-- `DeployerMeta.__new__` (deployer.py lines 53-81): for every provider in
`DEPLOYER_IMPL_PROVIDERS`, attach to the `Deployer` class a method named
`provider_class.TYPE.replace("-", "_")` that constructs that provider's
deployer implementation via `injectedDeployerMethod`. -/
def deployerMethodTable (providers : List Provider) :
    List (PyStr × (DeployerConfig → List (String × String) → Provider × DeployerImplArgs)) :=
  providers.map (fun p => (pyReplaceChar '-' '_' p.TYPE,
    fun self deployer_kwargs => (p, injectedDeployerMethod self deployer_kwargs)))

/-- `ArgoWorkflowsDeployedFlow.production_token`
(argo_workflows_deployer_objects.py lines 324-340):
`_, production_token = ArgoWorkflows.get_existing_deployment(self.deployer.name)`
inside `try ... except TypeError: return None`.  The lookup result is
modelled as `none` when it is not a deconstructible pair (unpacking it then
raises `TypeError`, which is caught) and `some (flow, token)` otherwise. -/
def argoProductionToken (get_existing_deployment : String → Option (String × String))
    (name : String) : Option String :=
  match get_existing_deployment name with
  | none => none
  | some (_, production_token) => some production_token

/-- The outcome of one `wait_for_completion` call: return normally
(`completed`), raise `TimeoutError` (`timedOut`), or exhaust the model's
poll budget (`outOfFuel` — never reached with enough fuel). -/
inductive WaitResult where
  | completed
  | timedOut
  | outOfFuel
  deriving DecidableEq, Repr

/-- The poll loop of `ArgoWorkflowsTriggeredRun.wait_for_completion`
(argo_workflows_deployer_objects.py lines 175-200), with time made
explicit: status checks and comparisons take no time, so the `k`-th
iteration of the loop runs at elapsed time `k * check_interval` (after `k`
sleeps).  `isRunning k` is the value the `self.is_running` property — re-read
from the orchestrator on every iteration — yields at the `k`-th iteration.
The Python loop is: `while self.is_running: if timeout is not None and
(time.time() - start_time) > timeout: raise TimeoutError;
time.sleep(check_interval)`. -/
def waitLoop (isRunning : Nat → Bool) (check_interval : Nat)
    (timeout : Option Nat) : Nat → Nat → WaitResult
  | 0, _ => .outOfFuel
  | fuel + 1, k =>
    if isRunning k then
      match timeout with
      | some T =>
          if k * check_interval > T then .timedOut
          else waitLoop isRunning check_interval timeout fuel (k + 1)
      | none => waitLoop isRunning check_interval timeout fuel (k + 1)
    else .completed

/-- `wait_for_completion(check_interval, timeout)`: run the poll loop from
iteration 0. -/
def wait_for_completion (isRunning : Nat → Bool) (check_interval : Nat)
    (timeout : Option Nat) (fuel : Nat) : WaitResult :=
  waitLoop isRunning check_interval timeout fuel 0

/-- `pySplit` always returns at least one segment. -/
theorem pySplit_ne_nil (sep : Char) (l : PyStr) : pySplit sep l ≠ [] := by
  induction l with
  | nil => simp [pySplit]
  | cons c rest ih =>
    by_cases h : c = sep
    · simp [pySplit, h]
    · simp only [pySplit, if_neg h]
      rcases hs : pySplit sep rest with _ | ⟨w, ws⟩
      · simp
      · simp

/-- A separator-free string splits into the single segment it is. -/
theorem pySplit_no_sep (sep : Char) (l : PyStr) (h : sep ∉ l) :
    pySplit sep l = [l] := by
  induction l with
  | nil => rfl
  | cons c rest ih =>
    simp only [List.mem_cons, not_or] at h
    simp [pySplit, Ne.symm h.1, ih h.2]

/-- Splitting at the first separator occurrence peels off the
separator-free head segment. -/
theorem pySplit_append_sep (sep : Char) (l r : PyStr) (h : sep ∉ l) :
    pySplit sep (l ++ sep :: r) = l :: pySplit sep r := by
  induction l with
  | nil => simp [pySplit]
  | cons c rest ih =>
    simp only [List.mem_cons, not_or] at h
    simp only [List.cons_append, pySplit, if_neg (Ne.symm h.1), List.append_eq, ih h.2]

/-- C2: the claim fails on the step-functions backend and the intent of the
code is clearly otherwise.  The Argo verbs satisfy it: after `sync_wait`
they return `True` exactly when the exit code is zero.  The step-functions
verbs read `process.returncode` without any wait: for a child that has not
yet been reaped and eventually exits 0, `returncode` is `None` and the
operation reports `False` — contradicting the docstring "True if the
command was successful". -/
theorem fire_and_forget_exit_code (child : ChildProcess) :
    (argoFireAndForget child = true ↔ child.exitCode = 0) ∧
    sfnFireAndForget { reaped := false, exitCode := 0 } = false := by
  constructor
  · simp [argoFireAndForget, syncWait, returncode]
  · rfl

/-- C1 counterexample: from a fresh `DeployerImpl`, a `create` whose child
exits with code 1 and delivers the well-formed payload `{"name": "X"}`
raises the deploy exception and returns no handle, **but** the deployer's
`name` attribute has been overwritten from the payload — partial state is
retained, contradicting the claim. -/
theorem create_nonzero_exit_mutates_state :
    (deployerCreate DeployerState.fresh
      (.parsed { name := some (.str "X"), flow_name := none, metadata := none,
                 additional_info := none }) 1).2 = .error .deployFailed ∧
    (deployerCreate DeployerState.fresh
      (.parsed { name := some (.str "X"), flow_name := none, metadata := none,
                 additional_info := none }) 1).1.name ≠ DeployerState.fresh.name := by
  refine ⟨by simp [deployerCreate], by simp [deployerCreate, DeployerState.fresh]⟩

/-- C1 amended: if the child exits non-zero or the payload is malformed,
`_create` raises an exception and returns no `DeployedFlow` handle; on a
malformed payload the deployer's fields are unchanged, but on a non-zero
exit with a well-formed payload the fields are overwritten with the
payload's values before the exception is raised. -/
theorem create_failure_behavior (s : DeployerState) (content : Content CreatePayload)
    (rc : Int) (h : rc ≠ 0 ∨ content = .malformed) :
    (∃ e, (deployerCreate s content rc).2 = .error e) ∧
    (content = .malformed → (deployerCreate s content rc).1 = s) ∧
    (∀ p, content = .parsed p →
      (deployerCreate s content rc).1 =
        { name := p.name, flow_name := p.flow_name, metadata := p.metadata,
          additional_info := some (p.additional_info.getD .emptyObj) }) := by
  rcases content with _ | p
  · exact ⟨⟨.parseError, rfl⟩, fun _ => rfl, fun p hp => by cases hp⟩
  · rcases h with h | h
    · refine ⟨⟨.deployFailed, ?_⟩, ?_, ?_⟩
      · simp [deployerCreate, h]
      · intro hc
        simp at hc
      · intro q hq
        cases hq
        simp [deployerCreate, h]
    · cases h

/-- Witness for `create_failure_behavior` at a concrete input: a malformed
payload with exit code 1. -/
theorem create_failure_behavior_witness :
    ((1 : Int) ≠ 0 ∨ (Content.malformed : Content CreatePayload) = .malformed) ∧
    ((∃ e, (deployerCreate DeployerState.fresh .malformed 1).2 = .error e) ∧
     ((Content.malformed : Content CreatePayload) = .malformed →
       (deployerCreate DeployerState.fresh .malformed 1).1 = DeployerState.fresh) ∧
     (∀ p, (Content.malformed : Content CreatePayload) = .parsed p →
       (deployerCreate DeployerState.fresh .malformed 1).1 =
         { name := p.name, flow_name := p.flow_name, metadata := p.metadata,
           additional_info := some (p.additional_info.getD .emptyObj) })) :=
  ⟨Or.inl (by decide),
   create_failure_behavior DeployerState.fresh .malformed 1 (Or.inl (by decide))⟩

/-- C3 counterexample: a trigger invocation whose child exits with code 0
(a successful trigger) but whose payload has no `"pathspec"` key returns a
`TriggeredRun` whose `pathspec` is null — the claimed invariant is not
enforced anywhere on the construction path. -/
theorem successful_trigger_with_null_pathspec :
    argoTrigger (.parsed { metadata := some (.str "m"), pathspec := none,
                           name := some (.str "n") }) 0 =
      .ok { metadata_for_flow := some (.str "m"), pathspec := none,
            name := some (.str "n") } := rfl

/-- C3 amended: a successful trigger (child exit code 0, well-formed
payload) returns a `TriggeredRun` whose `pathspec` is exactly the payload's
`"pathspec"` field — non-null exactly when the payload carries one;
`TriggeredRun.__init__` performs no null check. -/
theorem trigger_pathspec_from_payload (p : TriggerPayload) :
    argoTrigger (.parsed p) 0 =
      .ok { metadata_for_flow := p.metadata, pathspec := p.pathspec, name := p.name } := rfl

/-- C4 counterexample: a malformed payload is not treated as `None`/empty —
`json.loads` raises, so both `_create` and the trigger path surface a parse
exception instead of a handle with `None` attributes. -/
theorem malformed_payload_raises :
    (deployerCreate DeployerState.fresh .malformed 0).2 = .error .parseError ∧
    argoTrigger .malformed 0 = .error .parseError := ⟨rfl, rfl⟩

/-- C4 amended: a field absent from the JSON object is treated as `None`
(`additional_info` defaulting to the empty object) and never causes a
crash, in both `create` and `trigger`; a malformed payload, however, raises
a parse exception in both. -/
theorem absent_fields_default_malformed_raises (s : DeployerState)
    (pc : CreatePayload) (pt : TriggerPayload) :
    ((deployerCreate s (.parsed pc) 0).2 =
      .ok { name := pc.name, flow_name := pc.flow_name, metadata := pc.metadata }) ∧
    ((deployerCreate s (.parsed pc) 0).1.additional_info =
      some (pc.additional_info.getD .emptyObj)) ∧
    (argoTrigger (.parsed pt) 0 =
      .ok { metadata_for_flow := pt.metadata, pathspec := pt.pathspec, name := pt.name }) ∧
    ((deployerCreate s .malformed 0).2 = .error .parseError) ∧
    (argoTrigger .malformed 0 = .error .parseError) :=
  ⟨rfl, rfl, rfl, rfl, rfl⟩

/-- C6 counterexample: the injected `from_deployment` called with an
implementation key that is not among the registered providers returns
`None` — it silently yields nothing instead of failing. -/
theorem from_deployment_unknown_impl_none :
    fromDeploymentDispatch ["argo_workflows", "step_functions"] "wf" "unknown_impl"
      = none := by decide

/-- C6 amended: `get_lower_level_group` raises `ValueError` when the type
is `None` and `DeployerImpl` construction raises `ValueError` when `TYPE`
is `None` (both synchronously, before any subprocess is spawned); but the
injected `from_deployment` called with an unknown implementation key
returns `None` — it silently yields nothing rather than failing. -/
theorem unknown_backend_behavior (kwargs : List (String × String))
    (providers : List String) (identifier impl : String) (h : impl ∉ providers) :
    get_lower_level_group none kwargs = .error .valueError ∧
    deployerImplInitCheck none = .error .valueError ∧
    fromDeploymentDispatch providers identifier impl = none :=
  ⟨rfl, rfl, by simp [fromDeploymentDispatch, h]⟩

/-- Witness for `unknown_backend_behavior` at a concrete input. -/
theorem unknown_backend_behavior_witness :
    "unknown_impl" ∉ ["argo_workflows", "step_functions"] ∧
    (get_lower_level_group none [] = .error .valueError ∧
     deployerImplInitCheck none = .error .valueError ∧
     fromDeploymentDispatch ["argo_workflows", "step_functions"] "wf" "unknown_impl"
       = none) :=
  ⟨by decide,
   unknown_backend_behavior [] ["argo_workflows", "step_functions"] "wf" "unknown_impl"
     (by decide)⟩

/-- C7 counterexample: the Argo status query strips a hardcoded five
characters from the run-id segment, so for pathspec `"MyFlow/sfn-abc123"`
it queries run name `"bc123"`, not the claimed `"abc123"` (the
`"sfn-"` prefix is four characters, not five). -/
theorem status_query_sfn_pathspec :
    argoStatusQueryArgs "MyFlow/sfn-abc123".data =
      some ("MyFlow".data, "bc123".data) ∧
    ("bc123".data : PyStr) ≠ "abc123".data := by decide

/-- C7 amended: `ArgoWorkflowsTriggeredRun.status` splits the pathspec at
`"/"` and strips exactly five characters — the length of the `"argo-"`
prefix, a hardcoded offset in the Argo implementation — from the run-id
segment; with an `"argo-"`-prefixed run id the queried name is the
remaining suffix.  No backend-specific offset selection exists in the
source. -/
theorem argo_status_query_strips_five (flow runId rest : PyStr)
    (hf : '/' ∉ flow) (hr : '/' ∉ runId) :
    argoStatusQueryArgs (flow ++ '/' :: runId) = some (flow, runId.drop 5) ∧
    ("argo-".data ++ rest).drop 5 = rest := by
  constructor
  · simp [argoStatusQueryArgs, pySplit_append_sep _ _ _ hf, pySplit_no_sep _ _ hr]
  · exact List.drop_left "argo-".data rest

/-- Witness for `argo_status_query_strips_five` at a concrete input. -/
theorem argo_status_query_strips_five_witness :
    ('/' ∉ "MyFlow".data ∧ '/' ∉ "argo-abc123".data) ∧
    (argoStatusQueryArgs ("MyFlow".data ++ '/' :: "argo-abc123".data) =
       some ("MyFlow".data, "argo-abc123".data.drop 5) ∧
     ("argo-".data ++ "abc123".data).drop 5 = "abc123".data) :=
  ⟨⟨by decide, by decide⟩,
   argo_status_query_strips_five "MyFlow".data "argo-abc123".data "abc123".data
     (by decide) (by decide)⟩

/-- C8: the branch-annotation semantics of `from_deployment`: a branch
name starting with `"prod."` yields `production = True` and `branch` equal
to the name with that prefix removed; one starting with `"test."` yields
only `branch` with that prefix removed; the bare name `"prod"` yields only
`production = True`; any other branch name yields neither flag. -/
theorem branch_annotation_semantics :
    (∀ rest : PyStr, projectKwargsOfBranch (some ("prod.".data ++ rest)) =
      { production := some true, branch := some rest }) ∧
    (∀ rest : PyStr, projectKwargsOfBranch (some ("test.".data ++ rest)) =
      { production := none, branch := some rest }) ∧
    (projectKwargsOfBranch (some "prod".data) =
      { production := some true, branch := none }) ∧
    (∀ bn : PyStr, "prod.".data.isPrefixOf bn = false →
      "test.".data.isPrefixOf bn = false → bn ≠ "prod".data →
      projectKwargsOfBranch (some bn) = { production := none, branch := none }) := by
  have hpd : ∀ rest : PyStr, ("prod.".data ++ rest).drop 5 = rest := fun rest =>
    List.drop_left' (by decide)
  have htd : ∀ rest : PyStr, ("test.".data ++ rest).drop 5 = rest := fun rest =>
    List.drop_left' (by decide)
  have hpp : ∀ rest : PyStr, "prod.".data.isPrefixOf ("prod.".data ++ rest) = true :=
    fun rest => by simp [List.isPrefixOf_iff_prefix]
  have htt : ∀ rest : PyStr, "test.".data.isPrefixOf ("test.".data ++ rest) = true :=
    fun rest => by simp [List.isPrefixOf_iff_prefix]
  have hpt : ∀ rest : PyStr, "prod.".data.isPrefixOf ("test.".data ++ rest) = false := by
    intro rest
    rw [(by decide : "prod.".data = 'p' :: ['r', 'o', 'd', '.']),
        (by decide : "test.".data = 't' :: ['e', 's', 't', '.']), List.cons_append]
    have hc : ('p' == 't') = false := by decide
    simp [List.isPrefixOf_cons₂, hc]
  refine ⟨fun rest => ?_, fun rest => ?_, by decide, fun bn h1 h2 h3 => ?_⟩
  · simp [projectKwargsOfBranch, hpp rest, hpd rest]
  · simp [projectKwargsOfBranch, hpt rest, htt rest, htd rest]
  · simp [projectKwargsOfBranch, h1, h2, h3]

/-- Witness for `branch_annotation_semantics` (its last conjunct carries
hypotheses): evaluated at branch name `"feature"`. -/
theorem branch_annotation_semantics_witness :
    ("prod.".data.isPrefixOf "feature".data = false ∧
     "test.".data.isPrefixOf "feature".data = false ∧
     "feature".data ≠ "prod".data) ∧
    projectKwargsOfBranch (some "feature".data) =
      { production := none, branch := none } :=
  ⟨⟨by decide, by decide, by decide⟩,
   branch_annotation_semantics.2.2.2 "feature".data (by decide) (by decide) (by decide)⟩

/-- C9: for every provider in the registry, the `Deployer` class gains a
method named the provider's `TYPE` with every `'-'` replaced by `'_'`, and
calling it returns that provider's deployer implementation constructed
with the `Deployer`'s stored `flow_file`, `show_output`, `profile`, `env`,
`cwd`, `file_read_timeout` and top-level keyword options forwarded
unchanged, plus the call's own keyword arguments as `deployer_kwargs`. -/
theorem injected_methods_forward_config (providers : List Provider) (p : Provider)
    (hp : p ∈ providers) :
    ∃ f, (pyReplaceChar '-' '_' p.TYPE, f) ∈ deployerMethodTable providers ∧
      ∀ (self : DeployerConfig) (kwargs : List (String × String)),
        f self kwargs =
          (p, { deployer_kwargs := kwargs
                flow_file := self.flow_file
                show_output := self.show_output
                profile := self.profile
                env := self.env
                cwd := self.cwd
                file_read_timeout := self.file_read_timeout
                top_level_kwargs := self.top_level_kwargs }) := by
  refine ⟨fun self deployer_kwargs => (p, injectedDeployerMethod self deployer_kwargs),
    ?_, fun self kwargs => rfl⟩
  exact List.mem_map_of_mem _ hp

/-- Witness for `injected_methods_forward_config`: the step-functions
provider in a two-provider registry; its method name is
`"step_functions"`. -/
theorem injected_methods_forward_config_witness :
    (Provider.mk "step-functions".data ∈
      [Provider.mk "argo-workflows".data, Provider.mk "step-functions".data]) ∧
    (∃ f, ("step_functions".data, f) ∈
        deployerMethodTable
          [Provider.mk "argo-workflows".data, Provider.mk "step-functions".data] ∧
      ∀ (self : DeployerConfig) (kwargs : List (String × String)),
        f self kwargs =
          (Provider.mk "step-functions".data,
            { deployer_kwargs := kwargs
              flow_file := self.flow_file
              show_output := self.show_output
              profile := self.profile
              env := self.env
              cwd := self.cwd
              file_read_timeout := self.file_read_timeout
              top_level_kwargs := self.top_level_kwargs })) :=
  ⟨by decide,
   injected_methods_forward_config
     [Provider.mk "argo-workflows".data, Provider.mk "step-functions".data]
     (Provider.mk "step-functions".data) (by decide)⟩

/-- C10: reading `production_token` when the existing-deployment lookup
fails (its result is not a deconstructible pair, so the unpacking raises
`TypeError`) returns `None` rather than propagating an exception. -/
theorem production_token_lookup_failure
    (lookup : String → Option (String × String)) (name : String)
    (h : lookup name = none) :
    argoProductionToken lookup name = none := by
  simp [argoProductionToken, h]

/-- Witness for `production_token_lookup_failure` at a concrete lookup that
always fails. -/
theorem production_token_lookup_failure_witness :
    (fun _ : String => (none : Option (String × String))) "my-flow" = none ∧
    argoProductionToken (fun _ : String => none) "my-flow" = none :=
  ⟨rfl, production_token_lookup_failure (fun _ => none) "my-flow" rfl⟩

/-- Characterization of the poll loop with a finite timeout `T`: started at
iteration `k` (no later than the raise point `T / c + 1`, the first poll
whose elapsed time `k * c` strictly exceeds `T`) with enough fuel, the loop
raises `TimeoutError` iff `is_running` reads true at every poll from `k`
through the raise point, and returns normally iff some poll in that window
reads false — the first such poll ending the loop. -/
theorem waitLoop_characterization (isRunning : Nat → Bool) (c T : Nat) (hc : 0 < c) :
    ∀ fuel k, k ≤ T / c + 1 → T / c + 2 ≤ fuel + k →
      (waitLoop isRunning c (some T) fuel k = .timedOut ↔
        ∀ j, k ≤ j → j ≤ T / c + 1 → isRunning j = true) ∧
      (waitLoop isRunning c (some T) fuel k = .completed ↔
        ∃ j, isRunning j = false ∧ k ≤ j ∧ j ≤ T / c + 1 ∧
          ∀ i, k ≤ i → i < j → isRunning i = true) := by
  intro fuel
  induction fuel with
  | zero => intro k hk hf; omega
  | succ fuel ih =>
    intro k hk hf
    by_cases hrun : isRunning k = true
    · by_cases hT : k * c > T
      · have hkK : k = T / c + 1 := by
          have h1 : T / c < k := (Nat.div_lt_iff_lt_mul hc).mpr hT
          omega
        have hres : waitLoop isRunning c (some T) (fuel + 1) k = .timedOut := by
          simp [waitLoop, hrun, hT]
        constructor
        · rw [hres]
          constructor
          · intro _ j hkj hjK
            have hjk : j = k := by omega
            rw [hjk]; exact hrun
          · intro _; rfl
        · rw [hres]
          constructor
          · intro hcomp; cases hcomp
          · rintro ⟨j, hj, hkj, hjK, -⟩
            have hjk : j = k := by omega
            rw [hjk, hrun] at hj
            cases hj
      · have hT' : k * c ≤ T := Nat.le_of_not_lt hT
        have hk1 : k + 1 ≤ T / c + 1 := by
          have h1 : k ≤ T / c := (Nat.le_div_iff_mul_le hc).mpr hT'
          omega
        obtain ⟨iht, ihc⟩ := ih (k + 1) hk1 (by omega)
        have hstep : waitLoop isRunning c (some T) (fuel + 1) k =
            waitLoop isRunning c (some T) fuel (k + 1) := by
          simp [waitLoop, hrun, hT]
        constructor
        · rw [hstep, iht]
          constructor
          · intro h j hkj hjK
            rcases Nat.eq_or_lt_of_le hkj with heq | hlt
            · rw [← heq]; exact hrun
            · exact h j hlt hjK
          · intro h j hkj hjK
            exact h j (by omega) hjK
        · rw [hstep, ihc]
          constructor
          · rintro ⟨j, hj, hkj, hjK, hfirst⟩
            refine ⟨j, hj, by omega, hjK, fun i hki hij => ?_⟩
            rcases Nat.eq_or_lt_of_le hki with heq | hlt
            · rw [← heq]; exact hrun
            · exact hfirst i hlt hij
          · rintro ⟨j, hj, hkj, hjK, hfirst⟩
            have hjk : k ≠ j := by
              intro e
              rw [← e, hrun] at hj
              cases hj
            exact ⟨j, hj, by omega, hjK, fun i hki hij => hfirst i (by omega) hij⟩
    · have hrf : isRunning k = false := by
        cases hb : isRunning k
        · rfl
        · exact absurd hb hrun
      have hres : waitLoop isRunning c (some T) (fuel + 1) k = .completed := by
        simp [waitLoop, hrf]
      constructor
      · rw [hres]
        constructor
        · intro ht; cases ht
        · intro h
          have hk' := h k le_rfl hk
          rw [hrf] at hk'
          cases hk'
      · rw [hres]
        constructor
        · intro _
          exact ⟨k, hrf, le_rfl, hk, fun i hki hik => by omega⟩
        · intro _; rfl

/-- C5 amended: with a positive poll interval `c` and a finite timeout `T`
(and enough poll budget), `wait_for_completion` re-evaluates `is_running`
at each poll (the `k`-th poll at elapsed time `k * c`); it raises
`TimeoutError` iff `is_running` is true at every poll whose elapsed time is
at most `T` **and also at the first poll whose elapsed time strictly
exceeds `T`** (poll `T / c + 1`); it returns normally iff `is_running` is
false at some poll no later than that — the first such poll ending the
loop.  In particular the timeout bound is strict, and a run still running
for the entire duration exactly `T` but finished by the next poll does not
raise. -/
theorem wait_for_completion_behavior (isRunning : Nat → Bool) (c T fuel : Nat)
    (hc : 0 < c) (hfuel : T / c + 2 ≤ fuel) :
    (wait_for_completion isRunning c (some T) fuel = .timedOut ↔
      (∀ k, k * c ≤ T → isRunning k = true) ∧ isRunning (T / c + 1) = true) ∧
    (wait_for_completion isRunning c (some T) fuel = .completed ↔
      ∃ k, isRunning k = false ∧ k ≤ T / c + 1 ∧ ∀ j, j < k → isRunning j = true) := by
  obtain ⟨ht, hcmp⟩ :=
    waitLoop_characterization isRunning c T hc fuel 0 (Nat.zero_le _) (by omega)
  constructor
  · rw [wait_for_completion, ht]
    constructor
    · intro h
      refine ⟨fun k hk => h k (Nat.zero_le _) ?_, h (T / c + 1) (Nat.zero_le _) le_rfl⟩
      have h1 : k ≤ T / c := (Nat.le_div_iff_mul_le hc).mpr hk
      omega
    · rintro ⟨h1, h2⟩ j - hjK
      rcases Nat.lt_or_ge j (T / c + 1) with hlt | hge
      · refine h1 j ?_
        exact (Nat.le_div_iff_mul_le hc).mp (by omega)
      · have hj : j = T / c + 1 := by omega
        rw [hj]; exact h2
  · rw [wait_for_completion, hcmp]
    constructor
    · rintro ⟨j, hj, -, hjK, hfirst⟩
      exact ⟨j, hj, hjK, fun i hij => hfirst i (Nat.zero_le _) hij⟩
    · rintro ⟨j, hj, hjK, hfirst⟩
      exact ⟨j, hj, Nat.zero_le _, hjK, fun i _ hij => hfirst i hij⟩

/-- Witness for `wait_for_completion_behavior`: a run that never stops
running, polled every 5 seconds against a timeout of 7. -/
theorem wait_for_completion_behavior_witness :
    (0 < 5 ∧ 7 / 5 + 2 ≤ 10) ∧
    ((wait_for_completion (fun _ => true) 5 (some 7) 10 = .timedOut ↔
        (∀ k, k * 5 ≤ 7 → (fun _ : Nat => true) k = true) ∧
        (fun _ : Nat => true) (7 / 5 + 1) = true) ∧
     (wait_for_completion (fun _ => true) 5 (some 7) 10 = .completed ↔
        ∃ k, (fun _ : Nat => true) k = false ∧ k ≤ 7 / 5 + 1 ∧
          ∀ j, j < k → (fun _ : Nat => true) j = true)) :=
  ⟨⟨by decide, by decide⟩,
   wait_for_completion_behavior (fun _ => true) 5 7 10 (by decide) (by decide)⟩

/-- C5 counterexample: with `check_interval = 5` and `timeout = 5`, a run
whose `is_running` reads true at the polls at elapsed times 0 and 5 — so
the status remains non-terminal for the entire duration `5 ≥ T` — but false
at the poll at elapsed time 10, makes `wait_for_completion` return
normally instead of raising `TimeoutError`: the code's timeout comparison
is strictly `elapsed > timeout` and is not evaluated once `is_running`
reads false. -/
theorem wait_boundary_returns_normally :
    (fun k => decide (k ≤ 1)) 0 = true ∧
    (fun k => decide (k ≤ 1)) 1 = true ∧
    1 * 5 ≥ 5 ∧
    wait_for_completion (fun k => decide (k ≤ 1)) 5 (some 5) 10 = .completed := by
  decide

end Metaflow
